import Mathlib

/-!
# DeafAuth — verification of the token and credential subsystem

Shallow embedding of the DeafAuth authentication service (Flask + PASETO),
covering:

* `deafauth/auth.py` — key derivation (`get_paseto_key`), token issue
  (`generate_token`), token verification (`verify_token`), and the
  request guard (`token_required`);
* `deafauth/routes.py` — the signup, email-verification and login flows;
* `deafauth/models.py` — the `User` record and the store-level unique
  email column.

Modelling conventions:

* Machine integers are `Nat`/`Int` with explicit `% 2^32` where the
  source (SHA-256) works on 32-bit words.
* Wall-clock time is an explicit `Int` parameter (`now`); the Python code
  reads `datetime.now(timezone.utc)` at the corresponding points.
* The pyseto library is an external collaborator; its authenticated
  encryption is modelled symbolically: a token value either is a
  well-encrypted payload under some key, or it is garbage; decoding with
  the right key recovers exactly the payload, decoding anything else
  fails.  This is the standard symbolic model of authenticated
  encryption.
* The werkzeug password hasher is likewise external and modelled
  symbolically (a hash verifies exactly against the password it was made
  from).
* `hashlib.sha256` is implemented honestly (FIPS 180-4 over byte lists)
  so that the key-derivation claims are about the real construction.
* Fallible Python steps are modelled with `Option`/`Except`; the broad
  `except` in `verify_token` becomes a total function into `Option`.
-/

/-! ## Python string primitives

`str.split()` with no argument splits on runs of whitespace and drops
empty fragments; `str.lower()` lowercases; `str.strip()` trims
surrounding whitespace.  We model them over Lean strings. -/

/-- ASCII lowercase of one character, the case fold Python applies to
the header scheme and to email normalization (the embedding restricts
the Unicode case map to ASCII, the alphabet of every string the claims
touch). -/
def pyCharLower (c : Char) : Char :=
  if 'A' ≤ c ∧ c ≤ 'Z' then Char.ofNat (c.toNat + 32) else c

/-- Python `s.lower()`. -/
def pyLower (s : String) : String :=
  String.mk (s.data.map pyCharLower)

/-- Python `s.strip()`: drop whitespace from both ends. -/
def pyStrip (s : String) : String :=
  String.mk (((s.data.dropWhile Char.isWhitespace).reverse.dropWhile
    Char.isWhitespace).reverse)

/-- Helper for `pySplit`: walk the characters, accumulating the current
fragment (reversed); whitespace closes a fragment, and empty fragments
are never emitted. -/
def splitWsAux : List Char → List Char → List String
  | [], cur => if cur = [] then [] else [String.mk cur.reverse]
  | c :: rest, cur =>
      if c.isWhitespace then
        if cur = [] then splitWsAux rest []
        else String.mk cur.reverse :: splitWsAux rest []
      else splitWsAux rest (c :: cur)

/-- Python `s.split()`: split on runs of whitespace, discarding empty
fragments (so every returned fragment is non-empty and
`pySplit "" = []`). -/
def pySplit (s : String) : List String :=
  splitWsAux s.data []

/-- Python `s.strip().lower()` as used to normalize emails in
`routes.py` (signup line 39, login line 115). -/
def normalizeEmail (s : String) : String :=
  pyLower (pyStrip s)

/-- Python truthiness of an optional string: `not token` is true when
the value is `None` or the empty string. -/
def pyFalsy (t : Option String) : Bool :=
  match t with
  | none => true
  | some s => s == ""

/-! ## SHA-256 (hashlib.sha256, FIPS 180-4)

`get_paseto_key` derives the 32-byte PASETO key as
`hashlib.sha256(secret_key.encode()).digest()` (auth.py lines 17-20).
We implement the digest over `List Nat` byte strings, each byte `< 256`,
words as `Nat` reduced `% 2^32`. -/

/-- `2^32`, the modulus for 32-bit word arithmetic. -/
def wordMod : Nat := 4294967296

/-- Right-rotation of a 32-bit word by `n` bits. -/
def rotr32 (n x : Nat) : Nat :=
  ((x >>> n) ||| (x <<< (32 - n))) % wordMod

/-- The 64 SHA-256 round constants. -/
def sha256K : List Nat :=
  [1116352408, 1899447441, 3049323471, 3921009573,
   961987163, 1508970993, 2453635748, 2870763221,
   3624381080, 310598401, 607225278, 1426881987,
   1925078388, 2162078206, 2614888103, 3248222580,
   3835390401, 4022224774, 264347078, 604807628,
   770255983, 1249150122, 1555081692, 1996064986,
   2554220882, 2821834349, 2952996808, 3210313671,
   3336571891, 3584528711, 113926993, 338241895,
   666307205, 773529912, 1294757372, 1396182291,
   1695183700, 1986661051, 2177026350, 2456956037,
   2730485921, 2820302411, 3259730800, 3345764771,
   3516065817, 3600352804, 4094571909, 275423344,
   430227734, 506948616, 659060556, 883997877,
   958139571, 1322822218, 1537002063, 1747873779,
   1955562222, 2024104815, 2227730452, 2361852424,
   2428436474, 2756734187, 3204031479, 3329325298]

/-- The eight 32-bit working variables of the SHA-256 state. -/
structure Hash8 where
  a : Nat
  b : Nat
  c : Nat
  d : Nat
  e : Nat
  f : Nat
  g : Nat
  h : Nat

/-- The SHA-256 initial hash value. -/
def sha256Init : Hash8 :=
  ⟨1779033703, 3144134277, 1013904242, 2773480762,
   1359893119, 2600822924, 528734635, 1541459225⟩

/-- Group a byte list into big-endian 32-bit words (trailing bytes that
do not fill a word are dropped; padded blocks are always a multiple of 4). -/
def bytesToWords : List Nat → List Nat
  | b0 :: b1 :: b2 :: b3 :: rest =>
      (((b0 * 256 + b1) * 256 + b2) * 256 + b3) :: bytesToWords rest
  | _ => []

/-- One extension step of the message schedule: word `i` (for `16 ≤ i`)
from words `i-16`, `i-15`, `i-7`, `i-2`. -/
def scheduleWord (w : List Nat) (i : Nat) : Nat :=
  let w15 := w.getD (i - 15) 0
  let w2 := w.getD (i - 2) 0
  let s0 := rotr32 7 w15 ^^^ rotr32 18 w15 ^^^ (w15 >>> 3)
  let s1 := rotr32 17 w2 ^^^ rotr32 19 w2 ^^^ (w2 >>> 10)
  (w.getD (i - 16) 0 + s0 + w.getD (i - 7) 0 + s1) % wordMod

/-- Extend the 16 block words to the 64-entry message schedule. -/
def extendSchedule (ws : List Nat) : List Nat :=
  (List.range 48).foldl (fun w i => w ++ [scheduleWord w (i + 16)]) ws

/-- One SHA-256 compression round; `kw` is the round constant plus the
schedule word. -/
def sha256Round (st : Hash8) (kw : Nat) : Hash8 :=
  let s1 := rotr32 6 st.e ^^^ rotr32 11 st.e ^^^ rotr32 25 st.e
  let ch := (st.e &&& st.f) ^^^ ((0xffffffff ^^^ st.e) &&& st.g)
  let temp1 := (st.h + s1 + ch + kw) % wordMod
  let s0 := rotr32 2 st.a ^^^ rotr32 13 st.a ^^^ rotr32 22 st.a
  let maj := (st.a &&& st.b) ^^^ (st.a &&& st.c) ^^^ (st.b &&& st.c)
  let temp2 := (s0 + maj) % wordMod
  ⟨(temp1 + temp2) % wordMod, st.a, st.b, st.c,
   (st.d + temp1) % wordMod, st.e, st.f, st.g⟩

/-- Compress one 64-byte block into the running hash state. -/
def sha256Compress (st : Hash8) (block : List Nat) : Hash8 :=
  let ws := extendSchedule (bytesToWords block)
  let t := (List.zip sha256K ws).foldl
    (fun s kw => sha256Round s ((kw.1 + kw.2) % wordMod)) st
  ⟨(st.a + t.a) % wordMod, (st.b + t.b) % wordMod,
   (st.c + t.c) % wordMod, (st.d + t.d) % wordMod,
   (st.e + t.e) % wordMod, (st.f + t.f) % wordMod,
   (st.g + t.g) % wordMod, (st.h + t.h) % wordMod⟩

/-- The bit length of the message as 8 big-endian bytes. -/
def lengthBytes (n : Nat) : List Nat :=
  [n / 2 ^ 56 % 256, n / 2 ^ 48 % 256, n / 2 ^ 40 % 256, n / 2 ^ 32 % 256,
   n / 2 ^ 24 % 256, n / 2 ^ 16 % 256, n / 2 ^ 8 % 256, n % 256]

/-- SHA-256 padding: append `0x80`, zero bytes to 56 mod 64, then the
64-bit big-endian bit length. -/
def sha256Pad (msg : List Nat) : List Nat :=
  let len := msg.length
  let k := (64 - (len + 9) % 64) % 64
  msg ++ [128] ++ List.replicate k 0 ++ lengthBytes (len * 8)

/-- Split a byte list into 64-byte blocks. -/
def chunks64 (l : List Nat) : List (List Nat) :=
  if h : l = [] then [] else l.take 64 :: chunks64 (l.drop 64)
termination_by l.length
decreasing_by
  have hl : 0 < l.length := List.length_pos.mpr h
  simp only [List.length_drop]
  omega

/-- A 32-bit word as 4 big-endian bytes. -/
def wordBytes (w : Nat) : List Nat :=
  [w / 2 ^ 24 % 256, w / 2 ^ 16 % 256, w / 2 ^ 8 % 256, w % 256]

/-- Serialize the final hash state as the 32 digest bytes. -/
def hashBytes (st : Hash8) : List Nat :=
  wordBytes st.a ++ wordBytes st.b ++ wordBytes st.c ++ wordBytes st.d ++
  wordBytes st.e ++ wordBytes st.f ++ wordBytes st.g ++ wordBytes st.h

/-- The SHA-256 digest of a byte string: 32 bytes. -/
def sha256 (msg : List Nat) : List Nat :=
  hashBytes ((chunks64 (sha256Pad msg)).foldl sha256Compress sha256Init)

/-- Python `s.encode()`: the UTF-8 bytes of a string. -/
def utf8Bytes (s : String) : List Nat :=
  (String.toUTF8 s).toList.map UInt8.toNat

/-! ## Key derivation — auth.py `get_paseto_key` (lines 15-20)

The Flask SECRET_KEY string is hashed with SHA-256 to give exactly
32 bytes, then wrapped as a PASETO v4.local symmetric key. -/

/-- A PASETO symmetric key as built by `pyseto.Key.new`: version,
purpose, and the raw key bytes. -/
structure PasetoKey where
  version : Nat
  purpose : String
  keyBytes : List Nat
deriving DecidableEq

/-- auth.py `get_paseto_key`: hash the configured secret to 32 bytes,
wrap as a version-4 local key. -/
def get_paseto_key (secret_key : String) : PasetoKey :=
  ⟨4, "local", sha256 (utf8Bytes secret_key)⟩

/-! ## Tokens — auth.py `generate_token` / `verify_token` (lines 23-79)

pyseto itself is external; its authenticated encryption is modelled
symbolically.  A token either carries a payload sealed under a
particular key, or it is garbage (any string that is not an honest
encryption: wrong prefix, truncated, bit-flipped, or sealed under a key
we cannot represent).  Decoding succeeds exactly on an honest sealing
under the decoding key. -/

/-- What the sealed JSON payload can look like after decryption: a dict
with the sub/exp/iat fields the code reads (sub may be absent), or
content on which claim parsing raises (non-dict JSON, missing or
unparsable exp) — the broad except in `verify_token` turns the latter
into a `None` result. -/
inductive PayloadData where
  | wellFormed (sub : Option String) (exp : Int) (iat : Option Int)
  | badClaims (desc : String)
deriving DecidableEq

/-- A token value in the symbolic authenticated-encryption model. -/
inductive TokenStr where
  | sealed (key : PasetoKey) (payload : PayloadData)
  | garbage (s : String)
deriving DecidableEq

/-- `pyseto.decode`: succeeds exactly on a token honestly sealed under
the supplied key; everything else raises (modelled as `Except.error`). -/
def pysetoDecode (key : PasetoKey) (t : TokenStr) : Except String PayloadData :=
  match t with
  | .sealed k p => if k = key then .ok p else .error "decrypt failed"
  | .garbage _ => .error "malformed token"

/-- The claims dict `verify_token` returns on success. -/
structure Claims where
  sub : Option String
  exp : Int
  iat : Option Int
deriving DecidableEq

/-- auth.py `generate_token` (lines 23-46): payload
is sub = str(user_id), exp = now + expires_in, iat = now, sealed under
the derived key.  `now` is the issue instant. -/
def generate_token (key : PasetoKey) (now : Int) (user_id : Int)
    (expires_in : Int := 3600) : TokenStr :=
  .sealed key (.wellFormed (some (toString user_id)) (now + expires_in) (some now))

/-- auth.py `verify_token` (lines 49-79): decode under the key, parse
the claims, reject when `exp < now`; every raising step is folded into
`none` by the surrounding try/except.  `now` is the verification
instant. -/
def verify_token (key : PasetoKey) (now : Int) (t : TokenStr) : Option Claims :=
  match pysetoDecode key t with
  | .error _ => none
  | .ok (.badClaims _) => none
  | .ok (.wellFormed sub exp iat) =>
      if exp < now then none else some ⟨sub, exp, iat⟩

/-! ## Request guard — auth.py `token_required` (lines 82-106) -/

/-- The outcome of the guard around a protected route: a JSON error
response with a status, the wrapped handler invoked with the resolved
user id, or an uncaught Python exception (int() on a non-numeric sub,
or a KeyError when sub is absent — neither is caught by the code). -/
inductive GuardOutcome where
  | rejected (body : String) (status : Nat)
  | passed (user_id : Int)
  | uncaught (desc : String)
deriving DecidableEq

/-- A non-empty all-digit character run as a number. -/
def parseDigits (l : List Char) : Option Nat :=
  if l = [] then none
  else if l.all Char.isDigit then
    some (l.foldl (fun n c => n * 10 + (c.toNat - 48)) 0)
  else none

/-- Python `int(s)` on the sub string: optional surrounding whitespace,
an optional sign, then decimal digits (or a ValueError, modelled as
`none`). -/
def pyInt (s : String) : Option Int :=
  match (pyStrip s).data with
  | '-' :: rest => (parseDigits rest).map (fun n => -(n : Int))
  | '+' :: rest => (parseDigits rest).map (fun n => (n : Int))
  | t => (parseDigits t).map (fun n => (n : Int))

/-- auth.py lines 89-96: take the Authorization header, split on
whitespace; the token is the second fragment when there are exactly two
and the first lowercases to bearer; otherwise the token stays None. -/
def extractToken (auth_header : Option String) : Option String :=
  match auth_header with
  | none => none
  | some s =>
      if s == "" then none
      else
        match pySplit s with
        | [p0, p1] => if pyLower p0 = "bearer" then some p1 else none
        | _ => none

/-- auth.py `token_required` (lines 82-106): missing token gives a 401,
failed verification gives a 401, success resolves int(sub) and calls
the handler with it.  `interp` reads the token string of the header
back as a symbolic token value. -/
def token_required (key : PasetoKey) (now : Int) (interp : String → TokenStr)
    (auth_header : Option String) : GuardOutcome :=
  let token := extractToken auth_header
  if pyFalsy token then .rejected "Token is missing" 401
  else
    match verify_token key now (interp (token.getD "")) with
    | none => .rejected "Token is invalid or expired" 401
    | some payload =>
        match payload.sub with
        | none => .uncaught "KeyError: sub"
        | some s =>
            match pyInt s with
            | none => .uncaught "ValueError: invalid literal for int"
            | some uid => .passed uid

/-! ## Users and the credential store — models.py / routes.py

The werkzeug password hasher is external; we model an opaque hash that
verifies exactly against the password it was produced from (the salt is
abstracted away — it only affects the hash string, not the
verify relation). -/

/-- An opaque password hash, as produced by generate_password_hash. -/
structure PWHash where
  ofPassword : String
deriving DecidableEq

/-- werkzeug generate_password_hash. -/
def generate_password_hash (password : String) : PWHash :=
  ⟨password⟩

/-- werkzeug check_password_hash: true exactly when the hash was made
from this password. -/
def check_password_hash (h : PWHash) (password : String) : Bool :=
  h.ofPassword = password

/-- models.py `User` (lines 11-22): id (primary key), unique email,
password hash, verification state, nullable single-use verification
token.  Timestamps are irrelevant to every claim and omitted from the
record (they are store-assigned metadata). -/
structure User where
  id : Int
  email : String
  password_hash : PWHash
  is_verified : Bool
  verification_token : Option String
deriving DecidableEq

/-- The in-memory image of the users table: the rows in order.  SQL
filter_by(...).first() is List.find?. -/
abbrev UserStore := List User

/-- A JSON response from a route: body tag plus HTTP status.  The body
is summarised by the message/error string and the user payload it
carries, which is all the claims compare. -/
inductive RouteResult where
  | err (msg : String) (status : Nat)
  | loginOk (token : TokenStr) (user : User)
  | verifyOk (msg : String) (user : User)
deriving DecidableEq

/-! ### Login — routes.py `login` (lines 107-133) -/

/-- routes.py `login`: normalize the email, require both fields, look
the user up by email, and fail with one generic 401 both when the user
is absent and when the password check fails; on success issue a token
for the user id. -/
def login (key : PasetoKey) (now : Int) (store : UserStore)
    (rawEmail password : String) : RouteResult :=
  let email := normalizeEmail rawEmail
  if email == "" || password == "" then
    .err "Email and password are required" 400
  else
    match store.find? (fun u => u.email = email) with
    | none => .err "Invalid email or password" 401
    | some user =>
        if check_password_hash user.password_hash password then
          .loginOk (generate_token key now user.id) user
        else
          .err "Invalid email or password" 401

/-! ### Email verification — routes.py `verify_email` (lines 80-104)

The route mutates the store; the model returns the new store with the
response.  The ORM update is keyed by the row identity (primary key). -/

/-- routes.py `verify_email`: look the user up by verification token;
no match is a 400; an already-verified match returns the current state
unchanged; otherwise set is_verified and clear the token in one update. -/
def verify_email (store : UserStore) (token : String) :
    UserStore × RouteResult :=
  match store.find? (fun u => u.verification_token = some token) with
  | none => (store, .err "Invalid verification token" 400)
  | some user =>
      if user.is_verified then
        (store, .verifyOk "Email already verified" user)
      else
        let updated : User :=
          { user with is_verified := true, verification_token := none }
        (store.map (fun v => if v.id = user.id then updated else v),
         .verifyOk "Email verified successfully" updated)

/-! ### Signup — routes.py `signup` (lines 31-77) and the race model

Sequentially, signup validates, then checks for an existing row
(filter_by — an application-level read), then inserts and commits.  The
email column is declared unique at the store level (models.py line 17),
so a commit that would duplicate an email raises IntegrityError, which
the broad except turns into a 500 rollback.

For the concurrency claim we model two interleaved signups of the same
normalized email as a small step machine: each request performs its
read step (the filter_by check) and then its commit step (the insert
under the unique constraint).  Validation and hashing touch no shared
state and are left out of the interleaving. -/

/-- How one signup request ends. -/
inductive SignupRes where
  | conflict
  | created
  | dbError
deriving DecidableEq

/-- The HTTP status signup maps each ending to (routes.py lines 52, 66,
70-77). -/
def signupStatus : SignupRes → Nat
  | .conflict => 409
  | .created => 201
  | .dbError => 500

/-- The joint state of two concurrent signup requests for the same
normalized email: the set of committed emails, and per request a
program counter (0 = about to read, 1 = about to commit) and result. -/
structure RaceState where
  store : List String
  pc1 : Nat
  res1 : Option SignupRes
  pc2 : Nat
  res2 : Option SignupRes
deriving DecidableEq

/-- Both requests start before their read, with no result. -/
def raceInit (store0 : List String) : RaceState :=
  ⟨store0, 0, none, 0, none⟩

/-- One step of a single signup request for email `e`: the filter_by
read returns 409 when the email is present; else the commit inserts,
and the store-level unique constraint turns a lost race into
IntegrityError, caught as a 500 with rollback. -/
def signupStep (e : String) (store : List String) (pc : Nat)
    (res : Option SignupRes) : List String × Nat × Option SignupRes :=
  match res with
  | some _ => (store, pc, res)
  | none =>
      if pc = 0 then
        if e ∈ store then (store, 1, some .conflict)
        else (store, 1, none)
      else
        if e ∈ store then (store, 2, some .dbError)
        else (e :: store, 2, some .created)

/-- Run one scheduler choice: `false` steps request 1, `true` steps
request 2. -/
def raceStep (e : String) (s : RaceState) (who : Bool) : RaceState :=
  if who then
    let (st, pc, r) := signupStep e s.store s.pc2 s.res2
    { s with store := st, pc2 := pc, res2 := r }
  else
    let (st, pc, r) := signupStep e s.store s.pc1 s.res1
    { s with store := st, pc1 := pc, res1 := r }

/-- Run a whole schedule of interleaved steps. -/
def raceRun (e : String) (store0 : List String) (sched : List Bool) : RaceState :=
  sched.foldl (raceStep e) (raceInit store0)

/-- How many of the two requests ended in a successful create. -/
def createdCount (s : RaceState) : Nat :=
  (if s.res1 = some .created then 1 else 0) +
  (if s.res2 = some .created then 1 else 0)

/-! ## Theorems -/

/-- C1: for every subject and positive ttl, decoding a token produced
by generate_token at any instant before the expiry instant succeeds,
and the resulting claims carry that subject in sub. -/
theorem generate_verify_roundtrip (key : PasetoKey) (uid : Int)
    (ttl now tv : Int) (httl : 0 < ttl) (hbefore : tv < now + ttl) :
    ∃ c : Claims,
      verify_token key tv (generate_token key now uid ttl) = some c ∧
        c.sub = some (toString uid) := by
  refine ⟨⟨some (toString uid), now + ttl, some now⟩, ?_, rfl⟩
  simp [verify_token, generate_token, pysetoDecode,
    show ¬(now + ttl < tv) by omega]

/-- Witness for C1 at subject 7, ttl 3600, issued at 0, checked at 10. -/
theorem generate_verify_roundtrip_witness :
    ∃ c : Claims,
      verify_token ⟨4, "local", []⟩ 10
          (generate_token ⟨4, "local", []⟩ 0 7 3600) = some c ∧
        c.sub = some (toString (7 : Int)) :=
  generate_verify_roundtrip ⟨4, "local", []⟩ 7 3600 0 10 (by decide) (by decide)

/-- C2: a token whose embedded expiry is before the current instant is
rejected by verify_token even though it decrypts fine under the key. -/
theorem verify_token_rejects_expired (key : PasetoKey) (now : Int)
    (sub : Option String) (exp : Int) (iat : Option Int)
    (hexp : exp < now) :
    verify_token key now (.sealed key (.wellFormed sub exp iat)) = none := by
  simp [verify_token, pysetoDecode, hexp]

/-- Witness for C2: a token expired at instant 5, checked at instant 6. -/
theorem verify_token_rejects_expired_witness :
    verify_token ⟨4, "local", []⟩ 6
      (.sealed ⟨4, "local", []⟩ (.wellFormed (some "1") 5 none)) = none :=
  verify_token_rejects_expired ⟨4, "local", []⟩ 6 (some "1") 5 none (by decide)

/-- C10: verify_token is total — on every token value it returns either
a claims payload or none; every raising step of the Python body sits
inside the try/except that maps it to None. -/
theorem verify_token_total (key : PasetoKey) (now : Int) (t : TokenStr) :
    verify_token key now t = none ∨
      ∃ c : Claims, verify_token key now t = some c := by
  cases hv : verify_token key now t with
  | none => exact Or.inl rfl
  | some c => exact Or.inr ⟨c, rfl⟩

/-- C8: key derivation is deterministic, the derived key is exactly the
SHA-256 digest of the UTF-8 secret wrapped as a v4.local key, and that
digest is exactly 32 bytes, for every secret. -/
theorem get_paseto_key_spec :
    (∀ s1 s2 : String, s1 = s2 → get_paseto_key s1 = get_paseto_key s2) ∧
    (∀ s : String,
        get_paseto_key s = ⟨4, "local", sha256 (utf8Bytes s)⟩) ∧
    (∀ s : String, (get_paseto_key s).keyBytes.length = 32) := by
  refine ⟨fun s1 s2 h => by rw [h], fun s => rfl, fun s => ?_⟩
  show (sha256 (utf8Bytes s)).length = 32
  unfold sha256 hashBytes wordBytes
  simp

/-- Witness for C8 at the secret the shipped test suite configures. -/
theorem get_paseto_key_spec_witness :
    get_paseto_key "test-secret-key" = get_paseto_key "test-secret-key" ∧
    (get_paseto_key "test-secret-key").keyBytes.length = 32 :=
  ⟨get_paseto_key_spec.1 "test-secret-key" "test-secret-key" rfl,
   get_paseto_key_spec.2.2 "test-secret-key"⟩

/-- C9: login never consults is_verified — when the lookup finds a user
whose password matches, login succeeds and issues a token for that
user, even when the account is unverified. -/
theorem login_ignores_is_verified (key : PasetoKey) (now : Int)
    (store : UserStore) (rawEmail password : String) (u : User)
    (hfind : store.find? (fun v => v.email = normalizeEmail rawEmail) = some u)
    (hpw : check_password_hash u.password_hash password = true)
    (hne : (normalizeEmail rawEmail == "") = false)
    (hnp : (password == "") = false)
    (hunv : u.is_verified = false) :
    login key now store rawEmail password =
      .loginOk (generate_token key now u.id) u := by
  unfold login
  simp [hfind, hpw, hne, hnp]

/-- Witness for C9: an unverified stored account logs in. -/
theorem login_ignores_is_verified_witness :
    login ⟨4, "local", []⟩ 0
        [⟨1, "a@b.com", generate_password_hash "password1", false, some "tk"⟩]
        "a@b.com" "password1" =
      .loginOk (generate_token ⟨4, "local", []⟩ 0 1)
        ⟨1, "a@b.com", generate_password_hash "password1", false, some "tk"⟩ :=
  login_ignores_is_verified ⟨4, "local", []⟩ 0
    [⟨1, "a@b.com", generate_password_hash "password1", false, some "tk"⟩]
    "a@b.com" "password1"
    ⟨1, "a@b.com", generate_password_hash "password1", false, some "tk"⟩
    (by decide) (by decide) (by decide) (by decide) (by decide)

/-- C4: an absent email and a stored account with a wrong password make
login return one and the same generic 401 error, so the response does
not reveal whether the account exists. -/
theorem login_credential_oracle (key : PasetoKey) (now : Int)
    (store : UserStore) (e1 p1 e2 p2 : String) (u : User)
    (habsent : store.find? (fun v => v.email = normalizeEmail e1) = none)
    (hne1 : (normalizeEmail e1 == "") = false) (hp1 : (p1 == "") = false)
    (hfound : store.find? (fun v => v.email = normalizeEmail e2) = some u)
    (hpw : check_password_hash u.password_hash p2 = false)
    (hne2 : (normalizeEmail e2 == "") = false) (hp2 : (p2 == "") = false) :
    login key now store e1 p1 = .err "Invalid email or password" 401 ∧
    login key now store e2 p2 = .err "Invalid email or password" 401 ∧
    login key now store e1 p1 = login key now store e2 p2 := by
  have ha : login key now store e1 p1 = .err "Invalid email or password" 401 := by
    unfold login
    simp [habsent, hne1, hp1]
  have hb : login key now store e2 p2 = .err "Invalid email or password" 401 := by
    unfold login
    simp [hfound, hpw, hne2, hp2]
  exact ⟨ha, hb, by rw [ha, hb]⟩

/-- Witness for C4: unknown email versus wrong password against a
one-user store. -/
theorem login_credential_oracle_witness :
    login ⟨4, "local", []⟩ 0
        [⟨1, "a@b.com", generate_password_hash "password1", false, none⟩]
        "nobody@b.com" "password1" = .err "Invalid email or password" 401 ∧
    login ⟨4, "local", []⟩ 0
        [⟨1, "a@b.com", generate_password_hash "password1", false, none⟩]
        "a@b.com" "wrongpass" = .err "Invalid email or password" 401 ∧
    login ⟨4, "local", []⟩ 0
        [⟨1, "a@b.com", generate_password_hash "password1", false, none⟩]
        "nobody@b.com" "password1" =
      login ⟨4, "local", []⟩ 0
        [⟨1, "a@b.com", generate_password_hash "password1", false, none⟩]
        "a@b.com" "wrongpass" :=
  login_credential_oracle ⟨4, "local", []⟩ 0
    [⟨1, "a@b.com", generate_password_hash "password1", false, none⟩]
    "nobody@b.com" "password1" "a@b.com" "wrongpass"
    ⟨1, "a@b.com", generate_password_hash "password1", false, none⟩
    (by decide) (by decide) (by decide) (by decide) (by decide)
    (by decide) (by decide)

/-- Fragments produced by the whitespace split are never empty. -/
theorem splitWsAux_ne_empty (l : List Char) (cur : List Char) :
    ∀ t ∈ splitWsAux l cur, t ≠ "" := by
  induction l generalizing cur with
  | nil =>
    intro t ht
    by_cases hc : cur = []
    · simp [splitWsAux, hc] at ht
    · simp only [splitWsAux, if_neg hc, List.mem_singleton] at ht
      subst ht
      intro hcontra
      have : cur.reverse = [] := by
        have := congrArg String.data hcontra
        simpa using this
      exact hc (by simpa using congrArg List.reverse this)
  | cons c rest ih =>
    intro t ht
    simp only [splitWsAux] at ht
    by_cases hw : c.isWhitespace
    · rw [if_pos hw] at ht
      by_cases hc : cur = []
      · rw [if_pos hc] at ht
        exact ih [] t ht
      · rw [if_neg hc] at ht
        rcases List.mem_cons.mp ht with h1 | h2
        · subst h1
          intro hcontra
          have : cur.reverse = [] := by
            have := congrArg String.data hcontra
            simpa using this
          exact hc (by simpa using congrArg List.reverse this)
        · exact ih [] t h2
    · rw [if_neg hw] at ht
      exact ih (c :: cur) t ht

/-- Every fragment of `pySplit` is non-empty. -/
theorem pySplit_ne_empty (s : String) : ∀ t ∈ pySplit s, t ≠ "" :=
  splitWsAux_ne_empty s.data []

/-- C5: the guard extracts a bearer token exactly when the
Authorization header splits into exactly two whitespace-separated
fragments whose first lowercases to bearer; every other shape (missing
header, wrong scheme, extra fragments) is rejected as missing token. -/
theorem token_required_header_parsing (key : PasetoKey) (now : Int)
    (interp : String → TokenStr) (h : Option String) :
    ((∃ t, extractToken h = some t ∧ t ≠ "") ↔
      (∃ s p0 t, h = some s ∧ pySplit s = [p0, t] ∧ pyLower p0 = "bearer")) ∧
    (¬(∃ t, extractToken h = some t ∧ t ≠ "") →
      token_required key now interp h = .rejected "Token is missing" 401) := by
  constructor
  · constructor
    · rintro ⟨t, hext, hne⟩
      cases h with
      | none => simp [extractToken] at hext
      | some s =>
        simp only [extractToken] at hext
        split at hext
        · cases hext
        · rename_i hsne
          split at hext
          · rename_i p0 p1 hsp
            split at hext
            · rename_i hlow
              cases hext
              exact ⟨s, p0, t, rfl, hsp, hlow⟩
            · cases hext
          · cases hext
    · rintro ⟨s, p0, t, rfl, hsp, hlow⟩
      refine ⟨t, ?_, ?_⟩
      · have hsne : ¬(s == "") = true := by
          intro hs
          have : s = "" := by simpa using hs
          subst this
          simp [pySplit, splitWsAux] at hsp
        simp only [extractToken]
        rw [if_neg hsne, hsp]
        simp [hlow]
      · exact pySplit_ne_empty s t (hsp ▸ List.mem_cons_of_mem p0 (List.mem_singleton.mpr rfl))
  · intro hnone
    have hfalsy : pyFalsy (extractToken h) = true := by
      cases hext : extractToken h with
      | none => rfl
      | some t =>
        by_cases ht : t = ""
        · simp [pyFalsy, ht]
        · exact absurd ⟨t, hext, ht⟩ hnone
    unfold token_required
    rw [if_pos hfalsy]

/-- Witness for C5: a request with no Authorization header is rejected
as missing token. -/
theorem token_required_header_parsing_witness :
    token_required ⟨4, "local", []⟩ 0 TokenStr.garbage none =
      .rejected "Token is missing" 401 :=
  (token_required_header_parsing ⟨4, "local", []⟩ 0 TokenStr.garbage none).2
    (by simp [extractToken])

/-- C6: every rejection the guard sends — missing token or any decode
failure — carries status 401, and any two requests whose tokens fail
decoding (malformed, forged, or expired alike) receive literally the
same response. -/
theorem token_required_uniform_rejection (key : PasetoKey) (now : Int)
    (interp : String → TokenStr) :
    (∀ h b st, token_required key now interp h = .rejected b st → st = 401) ∧
    (∀ h1 h2 t1 t2,
        extractToken h1 = some t1 → (t1 == "") = false →
        extractToken h2 = some t2 → (t2 == "") = false →
        verify_token key now (interp t1) = none →
        verify_token key now (interp t2) = none →
        token_required key now interp h1 = token_required key now interp h2 ∧
        token_required key now interp h1 =
          .rejected "Token is invalid or expired" 401) := by
  constructor
  · intro h b st hres
    unfold token_required at hres
    simp only [] at hres
    split at hres
    · cases hres; rfl
    · split at hres
      · cases hres; rfl
      · split at hres
        · cases hres
        · split at hres
          · cases hres
          · cases hres
  · intro h1 h2 t1 t2 he1 hne1 he2 hne2 hv1 hv2
    have g1 : token_required key now interp h1 =
        .rejected "Token is invalid or expired" 401 := by
      simp [token_required, he1, hv1, pyFalsy, hne1]
    have g2 : token_required key now interp h2 =
        .rejected "Token is invalid or expired" 401 := by
      simp [token_required, he2, hv2, pyFalsy, hne2]
    exact ⟨g1.trans g2.symm, g1⟩

/-- Witness for C6: a wrong-looking but well-shaped bearer header with
an undecodable token gets the same 401 as any other decode failure. -/
theorem token_required_uniform_rejection_witness :
    token_required ⟨4, "local", []⟩ 0 TokenStr.garbage (some "Bearer abc") =
      token_required ⟨4, "local", []⟩ 0 TokenStr.garbage (some "bEaReR xyz") ∧
    token_required ⟨4, "local", []⟩ 0 TokenStr.garbage (some "Bearer abc") =
      .rejected "Token is invalid or expired" 401 :=
  (token_required_uniform_rejection ⟨4, "local", []⟩ 0 TokenStr.garbage).2
    (some "Bearer abc") (some "bEaReR xyz") "abc" "xyz"
    (by decide) (by decide) (by decide) (by decide) rfl rfl

/-- The account in the C3 scenario: created by signup, unverified, and
holding verification token tok123. -/
def c3User : User :=
  ⟨1, "a@b.com", generate_password_hash "password1", false, some "tok123"⟩

/-- C3 counterexample: verification clears the token (single use), so
the second call with the same token does not find the account and
returns the 400 invalid-token error instead of idempotent success. -/
theorem verify_email_second_call_fails :
    (verify_email [c3User] "tok123").2 =
      .verifyOk "Email verified successfully"
        ⟨1, "a@b.com", generate_password_hash "password1", true, none⟩ ∧
    (verify_email (verify_email [c3User] "tok123").1 "tok123").2 =
      .err "Invalid verification token" 400 := by
  constructor
  · rfl
  · rfl

/-- A lookup miss makes verify_email answer 400 and leave the store
unchanged (routes.py lines 84-87). -/
theorem verify_email_not_found (store : UserStore) (token : String)
    (hnone : store.find? (fun v => v.verification_token = some token) = none) :
    verify_email store token = (store, .err "Invalid verification token" 400) := by
  unfold verify_email
  rw [hnone]

/-- C3 amended: re-verification is idempotent only while the account
still holds the token.  When the lookup finds an already-verified
account the call succeeds with no mutation; when it finds an unverified
account, the first call consumes the token, and a repeat call with that
token fails with the 400 invalid-token error. -/
theorem verify_email_idempotent_only_while_token_held
    (store : UserStore) (token : String) (u : User)
    (hfind : store.find? (fun v => v.verification_token = some token) = some u) :
    (u.is_verified = true →
      verify_email store token = (store, .verifyOk "Email already verified" u)) ∧
    (u.is_verified = false →
      (∀ v ∈ store, v.verification_token = some token → v.id = u.id) →
      (verify_email (verify_email store token).1 token).2 =
        .err "Invalid verification token" 400) := by
  constructor
  · intro hver
    unfold verify_email
    rw [hfind]
    simp [hver]
  · intro hver huniq
    have hstep : (verify_email store token).1 =
        store.map (fun v =>
          if v.id = u.id then
            { u with is_verified := true, verification_token := none }
          else v) := by
      unfold verify_email
      rw [hfind]
      simp [hver]
    have hnone : ((verify_email store token).1).find?
        (fun v => v.verification_token = some token) = none := by
      rw [hstep]
      rw [List.find?_eq_none]
      intro x hx
      rcases List.mem_map.mp hx with ⟨v, hv, rfl⟩
      by_cases hid : v.id = u.id
      · simp [hid]
      · simp only [if_neg hid]
        intro hcontra
        exact hid (huniq v hv (by simpa using hcontra))
    rw [verify_email_not_found _ _ hnone]

/-- Witness for the amended C3: a verified account still holding its
token re-verifies as a no-op success, and a consumed token is refused. -/
theorem verify_email_idempotent_witness :
    verify_email
        [⟨1, "a@b.com", generate_password_hash "password1", true, some "tk"⟩]
        "tk" =
      ([⟨1, "a@b.com", generate_password_hash "password1", true, some "tk"⟩],
       .verifyOk "Email already verified"
         ⟨1, "a@b.com", generate_password_hash "password1", true, some "tk"⟩) :=
  (verify_email_idempotent_only_while_token_held
    [⟨1, "a@b.com", generate_password_hash "password1", true, some "tk"⟩]
    "tk"
    ⟨1, "a@b.com", generate_password_hash "password1", true, some "tk"⟩
    (by decide)).1 rfl

/-- Invariant of the signup race: a request that reported created has
committed the email, and the two requests never both report created. -/
def raceInv (e : String) (s : RaceState) : Prop :=
  (s.res1 = some .created → e ∈ s.store) ∧
  (s.res2 = some .created → e ∈ s.store) ∧
  ¬(s.res1 = some .created ∧ s.res2 = some .created)

/-- The initial race state satisfies the invariant. -/
theorem raceInv_init (e : String) (store0 : List String) :
    raceInv e (raceInit store0) := by
  refine ⟨?_, ?_, ?_⟩ <;> simp [raceInit]

/-- Each scheduler step preserves the race invariant: the store only
grows, and a commit can succeed only while the email is still absent,
which an earlier success of the other request would contradict. -/
theorem raceInv_step (e : String) (s : RaceState) (who : Bool)
    (h : raceInv e s) : raceInv e (raceStep e s who) := by
  obtain ⟨h1, h2, h3⟩ := h
  cases who with
  | false =>
    cases hr : s.res1 with
    | some r => refine ⟨?_, ?_, ?_⟩ <;> simp_all [raceStep, signupStep]
    | none =>
      by_cases hpc : s.pc1 = 0
      · by_cases hmem : e ∈ s.store <;>
          refine ⟨?_, ?_, ?_⟩ <;> simp_all [raceStep, signupStep]
      · by_cases hmem : e ∈ s.store
        · refine ⟨?_, ?_, ?_⟩ <;> simp_all [raceStep, signupStep]
        · refine ⟨?_, ?_, ?_⟩ <;> simp_all [raceStep, signupStep]
  | true =>
    cases hr : s.res2 with
    | some r => refine ⟨?_, ?_, ?_⟩ <;> simp_all [raceStep, signupStep]
    | none =>
      by_cases hpc : s.pc2 = 0
      · by_cases hmem : e ∈ s.store <;>
          refine ⟨?_, ?_, ?_⟩ <;> simp_all [raceStep, signupStep]
      · by_cases hmem : e ∈ s.store
        · refine ⟨?_, ?_, ?_⟩ <;> simp_all [raceStep, signupStep]
        · refine ⟨?_, ?_, ?_⟩ <;> simp_all [raceStep, signupStep]

/-- The invariant holds along any schedule. -/
theorem raceInv_run (e : String) (store0 : List String) (sched : List Bool) :
    raceInv e (raceRun e store0 sched) := by
  have main : ∀ (l : List Bool) (s : RaceState), raceInv e s →
      raceInv e (l.foldl (raceStep e) s) := by
    intro l
    induction l with
    | nil => intro s hs; exact hs
    | cons w rest ih =>
        intro s hs
        exact ih (raceStep e s w) (raceInv_step e s w hs)
  exact main sched (raceInit store0) (raceInv_init e store0)

/-- C7 amended: two signups of the same normalized email never both
succeed, under every interleaving of their store read and commit steps
and from every starting store — the store-level unique email column
stops the second commit. -/
theorem signup_race_at_most_one_created (e : String) (store0 : List String)
    (sched : List Bool) : createdCount (raceRun e store0 sched) ≤ 1 := by
  obtain ⟨h1, h2, h3⟩ := raceInv_run e store0 sched
  unfold createdCount
  by_cases ha : (raceRun e store0 sched).res1 = some .created <;>
    by_cases hb : (raceRun e store0 sched).res2 = some .created <;>
      simp [ha, hb]
  exact absurd ⟨ha, hb⟩ h3

/-- C7 counterexample: when both requests pass the application-level
read before either commits, the losing commit hits the unique
constraint and is surfaced as the 500 database error, not the 409
Conflict the claim attributes to an atomic store-level create. -/
theorem signup_race_loser_gets_500_not_conflict :
    (raceRun "a@b.com" [] [false, true, false, true]).res1 =
      some .created ∧
    (raceRun "a@b.com" [] [false, true, false, true]).res2 =
      some .dbError ∧
    (raceRun "a@b.com" [] [false, true, false, true]).res2 ≠
      some .conflict ∧
    signupStatus .dbError = 500 ∧
    signupStatus .conflict = 409 := by
  refine ⟨?_, ?_, ?_, rfl, rfl⟩ <;> decide
